import Mathlib

/-!
Verification development for the `assistente-privado` repository: a shallow
embedding, in Lean 4, of the OpenAI-assistant orchestration loop
(`OpenAIAssistantService`), the webhook handler (`WebhookHandler`), the
function registry (`FunctionFactory` / `BaseFunction`), the billing functions
(`GetClientInvoices`, `CheckServiceStatus`, `CreateTicket`), the cache layer
(`CacheService`) and the billing client (`WHMCSService.findClient`), together
with theorems settling the specification claims about them.

Conventions of the embedding:
- Asynchronous methods are modelled as pure functions; remote I/O (the OpenAI
  polling endpoint, the WHMCS HTTP API, Redis) is passed in as explicit
  environment data.
- A JavaScript exception is modelled as an `Except.error` carrying the
  exception message; `try/catch` becomes a `match` on the `Except`.
- JavaScript `undefined`/absent fields become `Option`; a Redis-stored JSON
  `null` is the inner `none` of an `Option (Option _)` stored value, which is
  distinct from the key being absent (the outer `none`).
-/

/-- `FunctionResult` from `src/types` : `{success, message, data?, error?}`.
`data` is an arbitrary JSON payload in the source; it is carried here as an
opaque serialized string since no claim inspects its structure. -/
structure FunctionResult where
  success : Bool
  message : String
  data : Option String := none
  error : Option String := none
deriving Repr, DecidableEq

/-- `ToolCall` : id + function name + raw JSON argument string
(`toolCall.function.arguments`). -/
structure ToolCall where
  id : String
  fname : String
  argsJson : String
deriving Repr, DecidableEq

/-- `ToolOutput` : `{tool_call_id, output}` submitted back to the run. -/
structure ToolOutput where
  tool_call_id : String
  output : String
deriving Repr, DecidableEq

/-- Run statuses distinguished by `waitForCompletion`
(src/unnamed/part_005 lines 131-152). -/
inductive RunStatus where
  | completed
  | requiresAction
  | failed
  | cancelled
  | expired
  | queued
  | inProgress
  | cancelling
deriving Repr, DecidableEq

/-- The raw status string (`run.status`), as interpolated into error
messages by the source. -/
def statusName : RunStatus → String
  | .completed => "completed"
  | .requiresAction => "requires_action"
  | .failed => "failed"
  | .cancelled => "cancelled"
  | .expired => "expired"
  | .queued => "queued"
  | .inProgress => "in_progress"
  | .cancelling => "cancelling"

/-- What one `runs.retrieve` call yields: the status, whether
`required_action?.type === \x27submit_tool_outputs\x27`, and
`required_action?.submit_tool_outputs?.tool_calls` (`none` models a missing
field; `some []` is an empty — but present, hence truthy — array). -/
structure RunView where
  status : RunStatus
  actionIsSubmitToolOutputs : Bool := true
  toolCalls : Option (List ToolCall) := none
deriving Repr, DecidableEq

/-- Argument objects handed to the Function Registry: a JSON object of
primitive fields, the shape the three billing functions consume. -/
inductive JPrim where
  | nullV
  | boolV (b : Bool)
  | numV (n : Int)
  | strV (s : String)
deriving Repr, DecidableEq

/-- A parsed JSON argument object (field name to primitive value). -/
def ArgsObj : Type := List (String × JPrim)

/-- The orchestrator's effectful collaborators: `JSON.parse` on the argument
string (a parse failure, i.e. a thrown exception, is `none`) and
`FunctionFactory.execute` (total: it never throws, see `factoryExecute`
below). -/
structure OrchEnv where
  parseArgs : String → Option ArgsObj
  registry : String → ArgsObj → FunctionResult

/-- `JSON.stringify` of a `FunctionResult`, with absent optional fields
omitted, mirroring how tool outputs are serialized. (String escaping inside
the fields is not modelled; the encoding is only required to be the same
function everywhere it is used.) -/
def serializeResult (r : FunctionResult) : String :=
  "\x7b\"success\":" ++ (cond r.success "true" "false") ++
  ",\"message\":\"" ++ r.message ++ "\"" ++
  (match r.data with
   | none => ""
   | some d => ",\"data\":" ++ d) ++
  (match r.error with
   | none => ""
   | some e => ",\"error\":\"" ++ e ++ "\"") ++ "\x7d"

/-- `executeFunctionCall` (part_005 lines 200-228): parse the JSON argument
string; on success dispatch to `FunctionFactory.execute`; a thrown parse
error is caught and converted into the synthesized failure result. -/
def executeFunctionCall (env : OrchEnv) (tc : ToolCall) : FunctionResult :=
  match env.parseArgs tc.argsJson with
  | some args => env.registry tc.fname args
  | none =>
      { success := false
        message := "❌ Erro ao processar argumentos da função"
        error := some "Argumentos inválidos" }

/-- The tool outputs built by the loop in `handleFunctionCalls`
(part_005 lines 169-188): one output per tool call, keyed by
`toolCall.id`, carrying the serialized result. (The outer `catch` of that
loop is dead in the model because `executeFunctionCall` returns — rather
than throws — its synthesized failure result.) -/
def outputsFor (env : OrchEnv) (cs : List ToolCall) : List ToolOutput :=
  cs.map fun tc => ⟨tc.id, serializeResult (executeFunctionCall env tc)⟩

/-- Observable events of one orchestration: a status poll
(`runs.retrieve`), a Function Registry invocation
(`FunctionFactory.execute`), a batched `submitToolOutputs`. -/
inductive OrchEvent where
  | poll (st : RunStatus)
  | invoke (callId : String) (fname : String)
  | submit (outputs : List ToolOutput)
deriving Repr, DecidableEq

/-- Registry invocations emitted while servicing a batch of tool calls: one
per call whose JSON arguments parse (a call whose parse throws never reaches
`FunctionFactory.execute`). -/
def invokeEvsFor (env : OrchEnv) (cs : List ToolCall) : List OrchEvent :=
  cs.filterMap fun tc =>
    (env.parseArgs tc.argsJson).map fun _ => OrchEvent.invoke tc.id tc.fname

/-- Outcome of one polling round (the `for` loop of `waitForCompletion`,
part_005 lines 121-153), before any recursive resubmission:
either the run completed, or an error was thrown (terminal status, missing
tool calls, or the timeout when the attempt budget is exhausted), or the run
demands a round of tool-output submission (`requires_action` with a present
`tool_calls` array). -/
inductive RoundOutcome where
  | done
  | err (msg : String)
  | resubmit (cs : List ToolCall)
deriving Repr, DecidableEq

/-- One polling round: `polls k` is the `RunView` returned by the k-th
`runs.retrieve` call of the whole execution; `remaining` is the number of
attempts left out of `maxAttempts = 30`. Returns the round outcome, the
index after the last poll performed, and the trace of events. `requires_action`
with a non-`submit_tool_outputs` action type falls through the `switch`
(`break`) and consumes the next attempt, as do `queued`/`in_progress`/
`cancelling` (the `sleep` is irrelevant to the model). -/
def pollRound (polls : Nat → RunView) : Nat → Nat → RoundOutcome × Nat × List OrchEvent
  | k, 0 => (.err "Timeout aguardando completion do run", k, [])
  | k, r + 1 =>
    let run := polls k
    let ev : OrchEvent := .poll run.status
    match run.status with
    | .completed => (.done, k + 1, [ev])
    | .requiresAction =>
      if run.actionIsSubmitToolOutputs then
        match run.toolCalls with
        | none => (.err "Tool calls não encontradas", k + 1, [ev])
        | some cs => (.resubmit cs, k + 1, [ev])
      else
        let rest := pollRound polls (k + 1) r
        (rest.1, rest.2.1, ev :: rest.2.2)
    | .failed => (.err ("Run falhou com status: " ++ statusName run.status), k + 1, [ev])
    | .cancelled => (.err ("Run falhou com status: " ++ statusName run.status), k + 1, [ev])
    | .expired => (.err ("Run falhou com status: " ++ statusName run.status), k + 1, [ev])
    | .queued =>
        let rest := pollRound polls (k + 1) r
        (rest.1, rest.2.1, ev :: rest.2.2)
    | .inProgress =>
        let rest := pollRound polls (k + 1) r
        (rest.1, rest.2.1, ev :: rest.2.2)
    | .cancelling =>
        let rest := pollRound polls (k + 1) r
        (rest.1, rest.2.1, ev :: rest.2.2)

/-- Final outcome of `waitForCompletion` including the recursive
resubmission rounds. `fuelOut` is an artifact of the embedding: the source
recursion (`handleFunctionCalls` calling `waitForCompletion` again) is
unbounded, so the model carries explicit fuel counting resubmission rounds;
real executions correspond to any sufficiently large fuel. -/
inductive OrchOutcome where
  | done
  | errorMsg (msg : String)
  | fuelOut
deriving Repr, DecidableEq

/-- `waitForCompletion` from poll index `k` on: run one polling round of 30
attempts; on `requires_action` with pending calls, service every call,
submit all outputs in one batch (`submitToolOutputs`), and recurse — which
in the source restarts `waitForCompletion` with a fresh 30-attempt budget
(part_005 line 196). -/
def waitFrom (env : OrchEnv) (polls : Nat → RunView) : Nat → Nat → OrchOutcome × Nat × List OrchEvent
  | fuel, k =>
    match pollRound polls k 30 with
    | (.done, k2, t) => (.done, k2, t)
    | (.err m, k2, t) => (.errorMsg m, k2, t)
    | (.resubmit cs, k2, t) =>
      match fuel with
      | 0 => (.fuelOut, k2, t ++ invokeEvsFor env cs ++ [.submit (outputsFor env cs)])
      | f + 1 =>
        let rest := waitFrom env polls f k2
        (rest.1, rest.2.1,
          t ++ invokeEvsFor env cs ++ [.submit (outputsFor env cs)] ++ rest.2.2)

/-- `waitForCompletion(threadId, runId)` : polling starts at the first
retrieve. Returns (outcome, total number of polls performed, event trace). -/
def waitForCompletion (env : OrchEnv) (polls : Nat → RunView) (fuel : Nat) :
    OrchOutcome × Nat × List OrchEvent :=
  waitFrom env polls fuel 0

/-- Result shape of `processMessage` :
`{success: boolean; response?: string; error?: string}`. -/
structure ProcResult where
  success : Bool
  response : Option String := none
  error : Option String := none
deriving Repr, DecidableEq

/-- `processMessage` (part_005 lines 35-87): thread resolution, message
append and run creation are modelled as succeeding (their failures are not
what the claims are about); the single created run is then awaited, and any
error thrown while awaiting is caught by the outer `catch` and converted to
`{success: false, error: <message>}`. The second component counts runs
created: the method creates exactly one run and its `catch` returns without
creating another. `finalReply` stands for the text `getResponse` extracts on
success. -/
def processMessage (env : OrchEnv) (polls : Nat → RunView) (fuel : Nat)
    (finalReply : String) : ProcResult × Nat :=
  match (waitForCompletion env polls fuel).1 with
  | .done => ({ success := true, response := some finalReply }, 1)
  | .errorMsg m => ({ success := false, error := some m }, 1)
  | .fuelOut => ({ success := false, error := some "fuel exhausted (embedding artifact)" }, 1)

/-- Poll-event counter for a trace. -/
def countPolls (t : List OrchEvent) : Nat :=
  t.countP fun e => match e with
    | .poll _ => true
    | _ => false

/-- Submit-event counter for a trace. -/
def countSubmits (t : List OrchEvent) : Nat :=
  t.countP fun e => match e with
    | .submit _ => true
    | _ => false

/-!
Cache layer (`CacheService`, src/unnamed/part_006).

Redis stores serialized strings. A store maps a full key either to nothing
(key absent) or to a stored value; the stored value is itself an `Option α`
because `JSON.stringify(null) = "null"` round-trips: storing `null` under a
key is distinct from the key being absent.
-/

/-- The Redis keyspace as seen through JSON serialization. -/
def CacheStore (α : Type) : Type := String → Option (Option α)

/-- The store with no keys set. -/
def emptyStore {α : Type} : CacheStore α := fun _ => none

/-- `CacheResult` : `{value, hit}`. -/
structure CacheResult (α : Type) where
  value : Option α
  hit : Bool
deriving Repr, DecidableEq

/-- `buildKey` (part_006 lines 199-203): prepend the service prefix and the
optional strategy prefix. -/
def buildKey (key : String) (pfx : Option String) : String :=
  match pfx with
  | some p => "whmcs_assistant:" ++ p ++ ":" ++ key
  | none => "whmcs_assistant:" ++ key

/-- `CacheService.get` (part_006 lines 55-87): a missing key is a miss; a
present key is a hit whose value is `JSON.parse` of the stored string — so a
stored `null` yields `{value: null, hit: true}`. `fullKey` is already built
by the caller in this model. -/
def cacheGet {α : Type} (store : CacheStore α) (fullKey : String) : CacheResult α :=
  match store fullKey with
  | none => ⟨none, false⟩
  | some v => ⟨v, true⟩

/-- `CacheService.set` (part_006 lines 90-112): stores `JSON.stringify` of
the value (which may be `null`). -/
def cacheSet {α : Type} (store : CacheStore α) (fullKey : String) (v : Option α) :
    CacheStore α :=
  fun k => if k = fullKey then some v else store k

/-- `CacheService.getOrSet` (part_006 lines 130-148): serve from cache only
when `cached.hit && cached.value !== null`; otherwise invoke the fetcher and
re-store its result. The third component records whether the fetcher was
invoked. -/
def cacheGetOrSet {α : Type} (store : CacheStore α) (fullKey : String)
    (fetcher : Option α) : Option α × CacheStore α × Bool :=
  let cached := cacheGet store fullKey
  if cached.hit ∧ cached.value.isSome then
    (cached.value, store, false)
  else
    (fetcher, cacheSet store fullKey fetcher, true)

/-!
Billing client (`WHMCSService`, src/unnamed/part_007).
-/

/-- A WHMCS client record (the fields the claims touch). -/
structure WHMCSClient where
  id : Int
  firstname : String
  lastname : String
  fullname : String := ""
  email : String := ""
deriving Repr, DecidableEq

/-- What the remote `GetClients` call yields for one identifier: a matching
client, an empty result set, or a thrown request error. -/
inductive ClientLookup where
  | found (c : WHMCSClient)
  | notFound
  | remoteError (msg : String)
deriving Repr, DecidableEq

/-- `CacheKeys.client` composed with `buildKey` under
`CacheStrategies.client` (prefix `whmcs`). -/
def clientFullKey (identifier : String) : String :=
  buildKey ("client:" ++ identifier) (some "whmcs")

/-- Whitespace for the purposes of `.trim()`. -/
def isWsChar (c : Char) : Bool :=
  c = ' ' || c = '\t' || c = '\n' || c = '\r'

/-- JavaScript `String.prototype.trim` (an executable, structurally
recursive rendering: strip leading and trailing whitespace). -/
def jsTrim (s : String) : String :=
  ⟨((s.data.dropWhile isWsChar).reverse.dropWhile isWsChar).reverse⟩

/-- The fetcher body of `WHMCSService.findClient` (part_007 lines 107-157):
a found client is enriched with `fullname`; an empty result set returns
`null`; a thrown remote error is caught and also returns `null`. It never
throws. -/
def findClientFetch (lookup : ClientLookup) : Option WHMCSClient :=
  match lookup with
  | .found c => some { c with fullname := jsTrim (c.firstname ++ " " ++ c.lastname) }
  | .notFound => none
  | .remoteError _ => none

/-- `WHMCSService.findClient` (part_007 lines 102-161): cache-aside around
the remote lookup, keyed by the raw identifier string. Returns the resolved
client (or `null`), the updated store, and whether the remote API was
queried. -/
def findClient (store : CacheStore WHMCSClient) (identifier : String)
    (remote : String → ClientLookup) :
    Option WHMCSClient × CacheStore WHMCSClient × Bool :=
  cacheGetOrSet store (clientFullKey identifier) (findClientFetch (remote identifier))

/-!
Function registry (`FunctionFactory`, src/src/factories/FunctionFactory.ts,
and `BaseFunction.executeWithLogging`,
src/src/functions/base/BaseFunction.ts).

A handler may throw (`Except.error`), and so may a factory creator.
-/

/-- A registered handler: `execute(args, context)`, which may throw. The
argument type is abstract (`A`) because each function declares its own. -/
def Handler (A : Type) : Type := A → Except String FunctionResult

/-- The registration map (`FunctionFactory.functions`): name to creator,
where a creator (`() => new SomeFunction()`) may itself throw. -/
def Registry (A : Type) : Type := List (String × (Unit → Except String (Handler A)))

/-- `Map.get` over the registration list. -/
def registryFind {A : Type} : Registry A → String → Option (Unit → Except String (Handler A))
  | [], _ => none
  | (n, c) :: rest, name => if n = name then some c else registryFind rest name

/-- `FunctionFactory.create` (lines 17-33): a missing creator yields `null`;
a throwing creator is caught and also yields `null`. -/
def factoryCreate {A : Type} (fns : Registry A) (name : String) : Option (Handler A) :=
  match registryFind fns name with
  | none => none
  | some creator =>
    match creator () with
    | .ok h => some h
    | .error _ => none

/-- `BaseFunction.executeWithLogging` (lines 37-69): run the handler; a
thrown error is caught and converted to a failed `FunctionResult`. Total. -/
def executeWithLogging {A : Type} (h : Handler A) (args : A) : FunctionResult :=
  match h args with
  | .ok r => r
  | .error e =>
      { success := false
        message := "❌ Ocorreu um erro interno. Tente novamente."
        error := some e }

/-- The result `FunctionFactory.execute` returns for an unknown (or
uninstantiable) function name. -/
def functionNotFoundResult (name : String) : FunctionResult :=
  { success := false
    message := "❌ Função \x27" ++ name ++ "\x27 não encontrada ou não implementada"
    error := some "Function not found" }

/-- `FunctionFactory.execute` (lines 36-63): total — every branch returns a
`FunctionResult`, never an exception. (Its own `catch` around
`executeWithLogging` is dead in the model because `executeWithLogging`
already catches.) -/
def factoryExecute {A : Type} (fns : Registry A) (name : String) (args : A) :
    FunctionResult :=
  match factoryCreate fns name with
  | none => functionNotFoundResult name
  | some h => executeWithLogging h args

/-!
Zod argument schemas (`src/src/utils/validators.ts` lines 77-99) and
`BaseFunction.validateArgs` (lines 17-34), which joins the issues as
`path: message` with `, ` and throws
`Argumentos inválidos: <joined>`. Zod collects the issues of all fields;
built-in zod wordings (missing field, wrong type, range) are abbreviated
here, while the custom messages declared in the schemas are kept verbatim.
Numbers are modelled as `Int` (no schema in play uses `.int()`, and no claim
depends on fractional values).
-/

/-- A required `z.string().min(len, msg)` field. -/
def vrStrMin (field : String) (minLen : Nat) (msg : String) (v : Option JPrim) :
    Except String String :=
  match v with
  | none => .error (field ++ ": Required")
  | some (.strV s) => if minLen ≤ s.length then .ok s else .error (field ++ ": " ++ msg)
  | some _ => .error (field ++ ": Invalid type")

/-- A `z.enum([...]).default(dflt)` field. -/
def vrEnumDefault (field : String) (allowed : List String) (dflt : String)
    (v : Option JPrim) : Except String String :=
  match v with
  | none => .ok dflt
  | some (.strV s) =>
      if allowed.contains s then .ok s else .error (field ++ ": Invalid enum value")
  | some _ => .error (field ++ ": Invalid type")

/-- A `z.number().min(lo).max(hi).default(dflt)` field. -/
def vrNumRange (field : String) (lo hi dflt : Int) (v : Option JPrim) :
    Except String Int :=
  match v with
  | none => .ok dflt
  | some (.numV n) =>
      if lo ≤ n ∧ n ≤ hi then .ok n else .error (field ++ ": Number out of range")
  | some _ => .error (field ++ ": Invalid type")

/-- A `z.boolean().default(dflt)` field. -/
def vrBoolDefault (field : String) (dflt : Bool) (v : Option JPrim) :
    Except String Bool :=
  match v with
  | none => .ok dflt
  | some (.boolV b) => .ok b
  | some _ => .error (field ++ ": Invalid type")

/-- An optional `z.string()` field. -/
def vrOptStr (field : String) (v : Option JPrim) : Except String (Option String) :=
  match v with
  | none => .ok none
  | some (.strV s) => .ok (some s)
  | some _ => .error (field ++ ": Invalid type")

/-- An optional `z.number().positive()` field. -/
def vrOptPosNum (field : String) (v : Option JPrim) : Except String (Option Int) :=
  match v with
  | none => .ok none
  | some (.numV n) =>
      if 0 < n then .ok (some n) else .error (field ++ ": Number must be positive")
  | some _ => .error (field ++ ": Invalid type")

/-- The issue list contributed by one field result. -/
def errOf {τ : Type} : Except String τ → List String
  | .ok _ => []
  | .error m => [m]

/-- Wraps joined zod issues the way `BaseFunction.validateArgs` throws them. -/
def invalidArgsMsg (issues : List String) : String :=
  "Argumentos inválidos: " ++ String.intercalate ", " issues

/-- Raw arguments of `get_client_invoices` (unknown extra keys are stripped
by zod and are irrelevant to validity, so they are not carried). -/
structure GetClientInvoicesArgs where
  client_identifier : Option JPrim := none
  status : Option JPrim := none
  limit : Option JPrim := none
  send_pdf : Option JPrim := none
  send_pix : Option JPrim := none
deriving Repr, DecidableEq

/-- Parsed `getClientInvoicesSchema` output. -/
structure GetClientInvoicesValidated where
  client_identifier : String
  status : String
  limit : Int
  send_pdf : Bool
  send_pix : Bool
deriving Repr, DecidableEq

/-- `getClientInvoicesSchema.parse` composed with
`BaseFunction.validateArgs`. -/
def validateGetClientInvoices (a : GetClientInvoicesArgs) :
    Except String GetClientInvoicesValidated :=
  let ci := vrStrMin "client_identifier" 1 "Identificador do cliente é obrigatório"
    a.client_identifier
  let st := vrEnumDefault "status" ["Unpaid", "Paid", "Overdue", "Cancelled", "All"]
    "Unpaid" a.status
  let li := vrNumRange "limit" 1 20 5 a.limit
  let pd := vrBoolDefault "send_pdf" false a.send_pdf
  let px := vrBoolDefault "send_pix" true a.send_pix
  match ci, st, li, pd, px with
  | .ok c, .ok s, .ok l, .ok d, .ok x => .ok ⟨c, s, l, d, x⟩
  | _, _, _, _, _ =>
      .error (invalidArgsMsg (errOf ci ++ errOf st ++ errOf li ++ errOf pd ++ errOf px))

/-- Raw arguments of `check_service_status`. -/
structure CheckServiceStatusArgs where
  client_identifier : Option JPrim := none
  domain : Option JPrim := none
  service_id : Option JPrim := none
deriving Repr, DecidableEq

/-- Parsed `checkServiceStatusSchema` output. -/
structure CheckServiceStatusValidated where
  client_identifier : String
  domain : Option String
  service_id : Option Int
deriving Repr, DecidableEq

/-- JS truthiness of the refine guard `data.domain || data.service_id`
(an empty string is falsy). -/
def refineDomainOrServiceId (d : Option String) (s : Option Int) : Bool :=
  (match d with
   | some v => v ≠ ""
   | none => false) ||
  (match s with
   | some n => n ≠ 0
   | none => false)

/-- `checkServiceStatusSchema.parse` composed with
`BaseFunction.validateArgs`. The `.refine` issue has an empty path, so its
rendered form is `: Domain ou service_id deve ser fornecido`; it fires only
when the base object parse succeeded. -/
def validateCheckServiceStatus (a : CheckServiceStatusArgs) :
    Except String CheckServiceStatusValidated :=
  let ci := vrStrMin "client_identifier" 1 "Identificador do cliente é obrigatório"
    a.client_identifier
  let dm := vrOptStr "domain" a.domain
  let sid := vrOptPosNum "service_id" a.service_id
  match ci, dm, sid with
  | .ok c, .ok d, .ok s =>
      if refineDomainOrServiceId d s then .ok ⟨c, d, s⟩
      else .error (invalidArgsMsg [": Domain ou service_id deve ser fornecido"])
  | _, _, _ => .error (invalidArgsMsg (errOf ci ++ errOf dm ++ errOf sid))

/-- Raw arguments of `create_ticket`. -/
structure CreateTicketArgs where
  client_identifier : Option JPrim := none
  subject : Option JPrim := none
  message : Option JPrim := none
  priority : Option JPrim := none
  department : Option JPrim := none
deriving Repr, DecidableEq

/-- Parsed `createTicketSchema` output. -/
structure CreateTicketValidated where
  client_identifier : String
  subject : String
  message : String
  priority : String
  department : Option String
deriving Repr, DecidableEq

/-- `createTicketSchema.parse` composed with `BaseFunction.validateArgs`. -/
def validateCreateTicket (a : CreateTicketArgs) : Except String CreateTicketValidated :=
  let ci := vrStrMin "client_identifier" 1 "Identificador do cliente é obrigatório"
    a.client_identifier
  let su := vrStrMin "subject" 5 "Assunto deve ter pelo menos 5 caracteres" a.subject
  let me := vrStrMin "message" 10 "Mensagem deve ter pelo menos 10 caracteres" a.message
  let pr := vrEnumDefault "priority" ["Low", "Medium", "High"] "Medium" a.priority
  let de := vrOptStr "department" a.department
  match ci, su, me, pr, de with
  | .ok c, .ok s, .ok m, .ok p, .ok d => .ok ⟨c, s, m, p, d⟩
  | _, _, _, _, _ =>
      .error (invalidArgsMsg (errOf ci ++ errOf su ++ errOf me ++ errOf pr ++ errOf de))

/-!
The three billing functions (src/src/functions/GetClientInvoices.ts,
src/src/functions/CheckServiceStatus.ts, src/unnamed/part_003).
Each `execute` validates, resolves the client, performs its domain
operation and renders a chat reply. The WhatsApp renderers (long formatting
methods, themselves performing remote PIX calls) are supplied through the
environment: no claim inspects the rendered text or the `data` payload of a
successful result. The second component of each `execute` is the trace of
`WHMCSService` methods invoked.
-/

/-- One client's invoice record (the fields the code reads). -/
structure WHMCSInvoice where
  id : Int
  number : String
  total : String
  status : String
  duedate : String
deriving Repr, DecidableEq

/-- One client's product/service record. -/
structure WHMCSProduct where
  id : Int
  name : String
  domain : String
  status : String
deriving Repr, DecidableEq

/-- What the remote `OpenTicket` call yields. -/
inductive TicketRemote where
  | created (ticketid : Int) (tid : String)
  | noId
  | thrown (msg : String)
deriving Repr, DecidableEq

/-- Result of `WHMCSService.createTicket` (part_007 lines 249-297): a
returned ticket id gives success; a response without one gives
`Erro ao criar ticket`; a thrown request error is caught and gives
`Erro interno ao criar ticket`. -/
structure TicketResult where
  success : Bool
  ticketId : Option Int := none
  message : String
deriving Repr, DecidableEq

/-- `WHMCSService.createTicket` over the remote outcome. -/
def whmcsCreateTicket (r : TicketRemote) : TicketResult :=
  match r with
  | .created tid s => ⟨true, some tid, "Ticket #" ++ s ++ " criado com sucesso!"⟩
  | .noId => ⟨false, none, "Erro ao criar ticket"⟩
  | .thrown _ => ⟨false, none, "Erro interno ao criar ticket"⟩

/-- The remote billing API and the rendering helpers, as an environment. -/
structure BillingEnv where
  remote : String → ClientLookup
  invoicesResult : Int → String → Int → List WHMCSInvoice
  servicesResult : Int → Option String → List WHMCSProduct
  ticketRemote : Int → String → String → String → Option String → TicketRemote
  enhanceTicketMessage : String → String
  renderInvoicesMsg : WHMCSClient → List WHMCSInvoice → String
  renderInvoicesData : WHMCSClient → List WHMCSInvoice → String
  renderServicesMsg : WHMCSClient → List WHMCSProduct → String
  renderServicesData : WHMCSClient → List WHMCSProduct → String
  renderTicketMsg : WHMCSClient → TicketResult → String → String → String
  renderTicketData : WHMCSClient → TicketResult → String → String → String

/-- The not-found reply shared verbatim by all three functions. -/
def clientNotFoundMsg : String :=
  "❌ Cliente não encontrado. Verifique o email, CPF/CNPJ ou ID informado."

/-- `GetClientInvoices.execute` (lines 46-109): a thrown validation error is
caught by the outer `catch` and converted to the internal-error result whose
`error` field carries the validation message; an unresolved client
short-circuits with the not-found result. -/
def getClientInvoicesExecute (env : BillingEnv) (store : CacheStore WHMCSClient)
    (a : GetClientInvoicesArgs) : FunctionResult × List String :=
  match validateGetClientInvoices a with
  | .error m =>
      ({ success := false
         message := "❌ Erro interno ao buscar faturas. Tente novamente."
         error := some m }, [])
  | .ok v =>
    match (findClient store v.client_identifier env.remote).1 with
    | none => ({ success := false, message := clientNotFoundMsg }, ["findClient"])
    | some c =>
      let invs := env.invoicesResult c.id v.status v.limit
      ({ success := true
         message := env.renderInvoicesMsg c invs
         data := some (env.renderInvoicesData c invs) }, ["findClient", "getInvoices"])

/-- `CheckServiceStatus.execute` (same protocol; a present `service_id`
filters the fetched services by id). -/
def checkServiceStatusExecute (env : BillingEnv) (store : CacheStore WHMCSClient)
    (a : CheckServiceStatusArgs) : FunctionResult × List String :=
  match validateCheckServiceStatus a with
  | .error m =>
      ({ success := false
         message := "❌ Erro interno ao verificar serviços. Tente novamente."
         error := some m }, [])
  | .ok v =>
    match (findClient store v.client_identifier env.remote).1 with
    | none => ({ success := false, message := clientNotFoundMsg }, ["findClient"])
    | some c =>
      let svcs := env.servicesResult c.id v.domain
      let filtered := match v.service_id with
        | some sid => svcs.filter fun s => s.id = sid
        | none => svcs
      ({ success := true
         message := env.renderServicesMsg c filtered
         data := some (env.renderServicesData c filtered) }, ["findClient", "getServices"])

/-- `CreateTicket.execute` (part_003 lines 45-115). -/
def createTicketExecute (env : BillingEnv) (store : CacheStore WHMCSClient)
    (a : CreateTicketArgs) : FunctionResult × List String :=
  match validateCreateTicket a with
  | .error m =>
      ({ success := false
         message := "❌ Erro interno ao criar ticket. Tente novamente."
         error := some m }, [])
  | .ok v =>
    match (findClient store v.client_identifier env.remote).1 with
    | none => ({ success := false, message := clientNotFoundMsg }, ["findClient"])
    | some c =>
      let tr := whmcsCreateTicket
        (env.ticketRemote c.id v.subject (env.enhanceTicketMessage v.message)
          v.priority v.department)
      if tr.success then
        ({ success := true
           message := env.renderTicketMsg c tr v.subject v.priority
           data := some (env.renderTicketData c tr v.subject v.priority) },
         ["findClient", "createTicket"])
      else
        ({ success := false
           message := if tr.message = "" then "❌ Erro ao criar ticket de suporte." else tr.message },
         ["findClient", "createTicket"])

/-!
Webhook handler (`WebhookHandler`, src/src/handlers/WebhookHandler.ts — the
current of the handler versions in the repository; src/unnamed/part_004 is
an earlier one).
-/

/-- The nested legacy `message` object (`message.id/body/fromMe`). -/
structure MessageObj where
  id : Option String := none
  body : Option String := none
  fromMe : Option Bool := none
deriving Repr, DecidableEq

/-- An inbound webhook JSON object, carrying exactly the fields the handler
reads. Fields carry their schema types: an object with a mistyped declared
field (e.g. `message: null` or `mensagem: 0`) is not representable here —
the source can 400-reject such an object through the schemas' type checks
followed by the falsy fallback key tests — so every statement quantifying
over `Payload` ranges over well-typed objects only. `ticketPresent` records
whether a `ticket` key exists (only its presence is ever tested by
validation); `extraKeys` lists any other keys, for the `receivedKeys` debug
output. -/
structure Payload where
  sender : Option String := none
  mensagem : Option String := none
  chamadoId : Option Nat := none
  filaescolhida : Option String := none
  fromMe : Option Bool := none
  acao : Option String := none
  event : Option String := none
  message : Option MessageObj := none
  ticketPresent : Bool := false
  extraKeys : List String := []
deriving Repr, DecidableEq

/-- `Object.keys` of a payload (a fixed field order; the claims only use
that the empty object has no keys). -/
def Payload.keys (p : Payload) : List String :=
  (if p.sender.isSome then ["sender"] else []) ++
  (if p.mensagem.isSome then ["mensagem"] else []) ++
  (if p.chamadoId.isSome then ["chamadoId"] else []) ++
  (if p.filaescolhida.isSome then ["filaescolhida"] else []) ++
  (if p.fromMe.isSome then ["fromMe"] else []) ++
  (if p.acao.isSome then ["acao"] else []) ++
  (if p.event.isSome then ["event"] else []) ++
  (if p.message.isSome then ["message"] else []) ++
  (if p.ticketPresent then ["ticket"] else []) ++
  p.extraKeys

/-- A request body as delivered by `express.json()`: a JSON object, or the
JSON literal `null` (a non-object body, for which every parse and every
fallback key test fails). -/
inductive Body where
  | obj (p : Payload)
  | jsonNull
deriving Repr, DecidableEq

/-- `Object.keys(req.body || \x7b\x7d)`. -/
def bodyKeys : Body → List String
  | .obj p => p.keys
  | .jsonNull => []

/-- Modelled from the spec: `schemas.whaticketRealWebhook`, referenced by
`validateWebhookPayload` but absent from the sources provided — only its
caller is. Per spec §4.5 step 2, shape A is the flat format recognized by
its flat fields (sender phone, message body `mensagem`, ticket/chamado id,
queue name); the model accepts an object iff one of those flat fields is
present, the same key set the handler's own shape-A fallback tests
(WebhookHandler.ts line 175). -/
def whaticketRealWebhookAccepts : Body → Bool
  | .obj p =>
      p.sender.isSome || p.mensagem.isSome || p.chamadoId.isSome ||
      p.filaescolhida.isSome
  | .jsonNull => false

/-- `whaTicketWebhookSchema.safeParse` (src/src/utils/validators.ts lines
53-74): every declared field is `.optional()` and the schema is
`.passthrough()`, so every object whose declared fields are well-typed —
i.e. every representable `Payload` — parses successfully, and a non-object
body fails. (An object with a mistyped declared field would fail too, but
such objects are outside this model; see `Payload`.) -/
def whaTicketWebhookAccepts : Body → Bool
  | .obj _ => true
  | .jsonNull => false

/-- `validateWebhookPayload` (WebhookHandler.ts lines 147-194): real-format
schema, then legacy schema, then the shape-A key fallback, then the legacy
key fallback, else `null`. -/
def validateWebhookPayload (b : Body) : Option Payload :=
  if whaticketRealWebhookAccepts b then
    match b with
    | .obj p => some p
    | .jsonNull => none
  else if whaTicketWebhookAccepts b then
    match b with
    | .obj p => some p
    | .jsonNull => none
  else
    match b with
    | .obj p =>
      if p.sender.isSome || p.mensagem.isSome || p.chamadoId.isSome ||
          p.filaescolhida.isSome then
        some p
      else if p.message.isSome || p.event.isSome || p.ticketPresent then
        some p
      else
        none
    | .jsonNull => none

/-- JS truthiness of `s && s.trim().length > 0` for an optional string. -/
def optNonBlank (o : Option String) : Bool :=
  match o with
  | some s => 0 < (jsTrim s).length
  | none => false

/-- `shouldProcessMessage` (WebhookHandler.ts lines 197-232): a non-blank
flat `mensagem` is processed unless top-level `fromMe === true`; otherwise a
non-blank legacy `message.body` is processed unless `message.fromMe ===
true`; otherwise recognized `event` keywords, then recognized `acao`
keywords, are processed unconditionally. -/
def shouldProcessMessage (p : Payload) : Bool :=
  if optNonBlank p.mensagem then
    if p.fromMe = some true then false else true
  else if optNonBlank (p.message.bind MessageObj.body) then
    if (p.message.bind MessageObj.fromMe) = some true then false else true
  else if (match p.event with
           | some e => ["message", "message:new", "message:received"].contains e
           | none => false) then
    true
  else if (match p.acao with
           | some a => ["start", "message"].contains a
           | none => false) then
    true
  else
    false

/-- `CacheKeys.webhookResponse` composed with `buildKey` under
`CacheStrategies.webhook` (prefix `webhook`). -/
def webhookFullKey (messageId : String) : String :=
  buildKey ("webhook:response:" ++ messageId) (some "webhook")

/-- The dedup cache stores `{processed: true, requestId, response}` objects;
only key presence is ever read back (`isDuplicateMessage` returns
`cached.hit`), so the stored object is collapsed to `Unit`. -/
def DedupStore : Type := CacheStore Unit

/-- `isDuplicateMessage` (lines 235-239). -/
def isDuplicateMessage (dedup : DedupStore) (messageId : String) : Bool :=
  (cacheGet dedup (webhookFullKey messageId)).hit

/-- JS falsiness of an optional string (absent or empty). -/
def strFalsy (o : Option String) : Bool :=
  match o with
  | some s => s = ""
  | none => true

/-- JS `a || b` for an optional string `a`: the left operand when truthy,
the fallback when `a` is absent or the empty string. -/
def jsOrElse (o : Option String) (fallback : String) : String :=
  match o with
  | some s => if s = "" then fallback else s
  | none => fallback

/-- `processMessageAsync` (lines 242-378), reduced to its observable
effects: (dedup store after, assistant runs started, outbound send
attempts). The insufficient-data guard throws before any run is started and
the `catch` attempts the apology send; on orchestrator success the reply is
sent and the dedup entry is cached under `message?.id || requestId` — the
`||` falls back to the request id when the id is absent or the (falsy)
empty string; on orchestrator failure the apology is sent and nothing is
cached. `orchOk` abstracts the success of `openaiService.processMessage`
together with the presence of a reply text. -/
def processMessageAsync (orchOk : Bool) (p : Payload) (requestId : String)
    (dedup : DedupStore) : DedupStore × Nat × Nat :=
  if strFalsy p.mensagem ∧ strFalsy (p.message.bind MessageObj.body) ∧
      strFalsy p.event ∧ strFalsy p.acao then
    (dedup, 0, 1)
  else if orchOk then
    (cacheSet dedup
      (webhookFullKey (jsOrElse (p.message.bind MessageObj.id) requestId))
      (some ()), 1, 1)
  else
    (dedup, 1, 1)

/-- The HTTP responses the synchronous phase of `handle` can produce. -/
inductive HttpResponse where
  | accepted (requestId : String) (messageId : Option String)
  | ignoredResp
  | duplicateResp (messageId : String)
  | invalidPayload (receivedKeys : List String)
  | invalidSignature
deriving Repr, DecidableEq

/-- HTTP status code of each response. -/
def httpStatus : HttpResponse → Nat
  | .accepted _ _ => 200
  | .ignoredResp => 200
  | .duplicateResp _ => 200
  | .invalidPayload _ => 400
  | .invalidSignature => 401

/-- Everything observable about one webhook delivery: the synchronous HTTP
response plus the effects of the (fire-and-forget) async processing. -/
structure WebhookEffects where
  response : HttpResponse
  assistantRuns : Nat
  outboundSends : Nat
  dedupAfter : DedupStore

/-- `WebhookHandler.handle` (lines 19-125). `secretConfigured` stands for
`config.webhook.secret` being set and non-default, `sigPresent` /
`sigValid` for the signature header's presence and HMAC validity (a missing
header is tolerated). After validation and the relevance filter, the dedup
check is `if (messageId && await this.isDuplicateMessage(messageId))` with
`messageId = webhookData.message?.id` — an absent or empty (falsy) id skips
the cache lookup — and acceptance fires the async processing. -/
def handleWebhook (secretConfigured sigPresent sigValid : Bool) (b : Body)
    (requestId : String) (dedup : DedupStore) (orchOk : Bool) : WebhookEffects :=
  if secretConfigured && sigPresent && !sigValid then
    ⟨.invalidSignature, 0, 0, dedup⟩
  else
    match validateWebhookPayload b with
    | none => ⟨.invalidPayload (bodyKeys b), 0, 0, dedup⟩
    | some p =>
      if !shouldProcessMessage p then
        ⟨.ignoredResp, 0, 0, dedup⟩
      else
        match p.message.bind MessageObj.id with
        | some mid =>
          if mid ≠ "" ∧ isDuplicateMessage dedup mid then
            ⟨.duplicateResp mid, 0, 0, dedup⟩
          else
            let a := processMessageAsync orchOk p requestId dedup
            ⟨.accepted requestId (some mid), a.2.1, a.2.2, a.1⟩
        | none =>
          let a := processMessageAsync orchOk p requestId dedup
          ⟨.accepted requestId none, a.2.1, a.2.2, a.1⟩

/-!
Theorems. Each claim of the specification gets one theorem (plus, where
needed, a witness or counterexample), stated over the embedding above.
-/

/-- Every validator error message is the `validateArgs` wrapping of a
non-empty issue list. -/
theorem validator_error_shape (a1 : GetClientInvoicesArgs)
    (a2 : CheckServiceStatusArgs) (a3 : CreateTicketArgs) (m : String) :
    (validateGetClientInvoices a1 = .error m → ∃ d, m = "Argumentos inválidos: " ++ d) ∧
    (validateCheckServiceStatus a2 = .error m → ∃ d, m = "Argumentos inválidos: " ++ d) ∧
    (validateCreateTicket a3 = .error m → ∃ d, m = "Argumentos inválidos: " ++ d) := by
  refine ⟨?_, ?_, ?_⟩
  · unfold validateGetClientInvoices
    dsimp only
    split
    · intro h; exact absurd h (by simp)
    · intro h
      cases h
      exact ⟨_, rfl⟩
  · unfold validateCheckServiceStatus
    dsimp only
    split
    · split
      · intro h; exact absurd h (by simp)
      · intro h; cases h; exact ⟨_, rfl⟩
    · intro h; cases h; exact ⟨_, rfl⟩
  · unfold validateCreateTicket
    dsimp only
    split
    · intro h; exact absurd h (by simp)
    · intro h; cases h; exact ⟨_, rfl⟩

/-- C6: `FunctionFactory.execute` is total — it returns a `FunctionResult`
for every name and argument object, never an exception (its Lean type).
An unregistered name yields the success=false "Function not found" result;
a creator that throws yields the same result (via `create` returning null);
a handler that throws during execution is caught and converted to a
success=false result. One bad handler never fails the registry request. -/
theorem c6_factory_execute_never_throws {A : Type}
    (fns : Registry A) (name : String) (args : A) :
    (registryFind fns name = none →
      factoryExecute fns name args = functionNotFoundResult name ∧
      (factoryExecute fns name args).success = false ∧
      (factoryExecute fns name args).error = some "Function not found")
    ∧ (∀ creator h e, registryFind fns name = some creator →
        creator () = .ok h → h args = .error e →
        factoryExecute fns name args =
          { success := false
            message := "❌ Ocorreu um erro interno. Tente novamente."
            error := some e } ∧
        (factoryExecute fns name args).success = false)
    ∧ (∀ creator e, registryFind fns name = some creator → creator () = .error e →
        factoryExecute fns name args = functionNotFoundResult name) := by
  refine ⟨?_, ?_, ?_⟩
  · intro hnone
    simp [factoryExecute, factoryCreate, hnone, functionNotFoundResult]
  · intro creator h e hfind hok herr
    simp [factoryExecute, factoryCreate, hfind, hok, executeWithLogging, herr]
  · intro creator e hfind herr
    simp [factoryExecute, factoryCreate, hfind, herr, functionNotFoundResult]

def c6Handler : Handler Nat := fun _ => .error "kaput"

def c6Fns : Registry Nat := [("boom", fun _ => .ok c6Handler)]

/-- C6 witness: the theorem applied to a one-entry registry whose handler
throws, at an unknown and at the registered name. -/
theorem c6_factory_execute_never_throws_witness :
    factoryExecute c6Fns "nope" 0 = functionNotFoundResult "nope" ∧
    factoryExecute c6Fns "boom" 0 =
      { success := false
        message := "❌ Ocorreu um erro interno. Tente novamente."
        error := some "kaput" } :=
  ⟨((c6_factory_execute_never_throws c6Fns "nope" 0).1 rfl).1,
   ((c6_factory_execute_never_throws c6Fns "boom" 0).2.1
      (fun _ => .ok c6Handler) c6Handler "kaput" rfl rfl rfl).1⟩

/-- C7: for each billing function, an argument object failing its declared
zod schema yields a success=false result whose `error` field carries the
human-readable joined validation message (prefixed `Argumentos inválidos:`),
no exception escapes (the functions return, not throw), and the trace of
`WHMCSService` calls is empty — the billing client is never reached. -/
theorem c7_invalid_args_never_reach_billing_client
    (env : BillingEnv) (store : CacheStore WHMCSClient) :
    (∀ a m, validateGetClientInvoices a = .error m →
      getClientInvoicesExecute env store a =
        ({ success := false
           message := "❌ Erro interno ao buscar faturas. Tente novamente."
           error := some m }, []) ∧ ∃ d, m = "Argumentos inválidos: " ++ d)
    ∧ (∀ a m, validateCheckServiceStatus a = .error m →
      checkServiceStatusExecute env store a =
        ({ success := false
           message := "❌ Erro interno ao verificar serviços. Tente novamente."
           error := some m }, []) ∧ ∃ d, m = "Argumentos inválidos: " ++ d)
    ∧ (∀ a m, validateCreateTicket a = .error m →
      createTicketExecute env store a =
        ({ success := false
           message := "❌ Erro interno ao criar ticket. Tente novamente."
           error := some m }, []) ∧ ∃ d, m = "Argumentos inválidos: " ++ d) := by
  refine ⟨?_, ?_, ?_⟩
  · intro a m hv
    exact ⟨by simp [getClientInvoicesExecute, hv],
           (validator_error_shape a {} {} m).1 hv⟩
  · intro a m hv
    exact ⟨by simp [checkServiceStatusExecute, hv],
           (validator_error_shape {} a {} m).2.1 hv⟩
  · intro a m hv
    exact ⟨by simp [createTicketExecute, hv],
           (validator_error_shape {} {} a m).2.2 hv⟩

/-- A trivial billing environment for concrete instantiations. -/
def trivialBillingEnv (look : String → ClientLookup) : BillingEnv :=
  { remote := look
    invoicesResult := fun _ _ _ => []
    servicesResult := fun _ _ => []
    ticketRemote := fun _ _ _ _ _ => .noId
    enhanceTicketMessage := fun s => s
    renderInvoicesMsg := fun _ _ => ""
    renderInvoicesData := fun _ _ => ""
    renderServicesMsg := fun _ _ => ""
    renderServicesData := fun _ _ => ""
    renderTicketMsg := fun _ _ _ _ => ""
    renderTicketData := fun _ _ _ _ => "" }

/-- C7 witness: the theorem applied to the empty argument object (missing
`client_identifier`) for all three functions. -/
theorem c7_invalid_args_never_reach_billing_client_witness :
    getClientInvoicesExecute (trivialBillingEnv fun _ => .notFound) emptyStore {} =
      ({ success := false
         message := "❌ Erro interno ao buscar faturas. Tente novamente."
         error := some "Argumentos inválidos: client_identifier: Required" }, []) ∧
    checkServiceStatusExecute (trivialBillingEnv fun _ => .notFound) emptyStore {} =
      ({ success := false
         message := "❌ Erro interno ao verificar serviços. Tente novamente."
         error := some "Argumentos inválidos: client_identifier: Required" }, []) ∧
    createTicketExecute (trivialBillingEnv fun _ => .notFound) emptyStore {} =
      ({ success := false
         message := "❌ Erro interno ao criar ticket. Tente novamente."
         error := some ("Argumentos inválidos: client_identifier: Required, " ++
           "subject: Required, message: Required") }, []) :=
  ⟨((c7_invalid_args_never_reach_billing_client (trivialBillingEnv fun _ => .notFound)
      emptyStore).1 {} _ rfl).1,
   ((c7_invalid_args_never_reach_billing_client (trivialBillingEnv fun _ => .notFound)
      emptyStore).2.1 {} _ rfl).1,
   ((c7_invalid_args_never_reach_billing_client (trivialBillingEnv fun _ => .notFound)
      emptyStore).2.2 {} _ rfl).1⟩

/-- C8: an identifier the billing client cannot resolve makes `findClient`
return null — never throw (`findClientFetch` catches the remote error and
the empty result set alike) — and makes each billing function return a
success=false result whose message contains "não encontrado", with only the
`findClient` call in the service trace. `hstore` says the cache holds no
previously resolved client under the identifier (absent key or cached
null). -/
theorem c8_unresolvable_client_yields_not_found
    (store : CacheStore WHMCSClient) (identifier : String)
    (remote : String → ClientLookup)
    (hlook : remote identifier = .notFound ∨ ∃ m, remote identifier = .remoteError m)
    (hstore : store (clientFullKey identifier) = none ∨
              store (clientFullKey identifier) = some none) :
    (findClient store identifier remote).1 = none
    ∧ (∀ env : BillingEnv, env.remote = remote →
        ∀ a v, validateGetClientInvoices a = .ok v →
          v.client_identifier = identifier →
          getClientInvoicesExecute env store a =
            ({ success := false, message := clientNotFoundMsg }, ["findClient"]))
    ∧ (∀ env : BillingEnv, env.remote = remote →
        ∀ a v, validateCheckServiceStatus a = .ok v →
          v.client_identifier = identifier →
          checkServiceStatusExecute env store a =
            ({ success := false, message := clientNotFoundMsg }, ["findClient"]))
    ∧ (∀ env : BillingEnv, env.remote = remote →
        ∀ a v, validateCreateTicket a = .ok v →
          v.client_identifier = identifier →
          createTicketExecute env store a =
            ({ success := false, message := clientNotFoundMsg }, ["findClient"]))
    ∧ (∃ pre post, clientNotFoundMsg = pre ++ "não encontrado" ++ post) := by
  have hfetch : findClientFetch (remote identifier) = none := by
    rcases hlook with h | ⟨m, h⟩ <;> simp [findClientFetch, h]
  have hfc : (findClient store identifier remote).1 = none := by
    rcases hstore with h | h <;>
      simp [findClient, cacheGetOrSet, cacheGet, h, hfetch]
  refine ⟨hfc, ?_, ?_, ?_, ?_⟩
  · intro env henv a v hva hvid
    have : (findClient store v.client_identifier env.remote).1 = none := by
      rw [henv, hvid]; exact hfc
    simp [getClientInvoicesExecute, hva, this]
  · intro env henv a v hva hvid
    have : (findClient store v.client_identifier env.remote).1 = none := by
      rw [henv, hvid]; exact hfc
    simp [checkServiceStatusExecute, hva, this]
  · intro env henv a v hva hvid
    have : (findClient store v.client_identifier env.remote).1 = none := by
      rw [henv, hvid]; exact hfc
    simp [createTicketExecute, hva, this]
  · exact ⟨"❌ Cliente ", ". Verifique o email, CPF/CNPJ ou ID informado.", by decide⟩

/-- C8 witness: the theorem applied to the empty cache, a remote returning
zero matches for `cliente@email.com`, and `get_client_invoices` arguments
naming that identifier. -/
theorem c8_unresolvable_client_yields_not_found_witness :
    (findClient emptyStore "cliente@email.com" (fun _ => .notFound)).1 = none ∧
    getClientInvoicesExecute (trivialBillingEnv fun _ => .notFound) emptyStore
      { client_identifier := some (.strV "cliente@email.com") } =
      ({ success := false, message := clientNotFoundMsg }, ["findClient"]) := by
  have h := c8_unresolvable_client_yields_not_found emptyStore "cliente@email.com"
    (fun _ => .notFound) (Or.inl rfl) (Or.inl rfl)
  exact ⟨h.1, h.2.1 (trivialBillingEnv fun _ => .notFound) rfl
    { client_identifier := some (.strV "cliente@email.com") }
    { client_identifier := "cliente@email.com", status := "Unpaid", limit := 5,
      send_pdf := false, send_pix := true } rfl rfl⟩

/-- C10: a cached null is a hit for `CacheService.get` (`{value: null,
hit: true}`) but a miss for `getOrSet`, whose guard demands a non-null
value, so the fetcher is re-invoked and its result re-stored; consequently
`findClient` writes null (unresolved identifier) into the cache, yet a
repeated lookup of that identifier queries the remote API again instead of
serving "not found" from the cache. -/
theorem c10_cached_null_never_served
    {α : Type} (store : CacheStore α) (key : String) (fetcher : Option α)
    (hnull : store key = some none)
    (cstore : CacheStore WHMCSClient) (identifier : String)
    (remote : String → ClientLookup)
    (hremote : remote identifier = .notFound)
    (hfresh : cstore (clientFullKey identifier) = none ∨
              cstore (clientFullKey identifier) = some none) :
    cacheGet store key = ⟨none, true⟩
    ∧ cacheGetOrSet store key fetcher = (fetcher, cacheSet store key fetcher, true)
    ∧ (findClient cstore identifier remote).1 = none
    ∧ (findClient cstore identifier remote).2.1 (clientFullKey identifier) = some none
    ∧ (findClient cstore identifier remote).2.2 = true
    ∧ (findClient (findClient cstore identifier remote).2.1 identifier remote).2.2 = true
    ∧ (findClient (findClient cstore identifier remote).2.1 identifier remote).1 = none := by
  have hfetch : findClientFetch (remote identifier) = none := by
    simp [findClientFetch, hremote]
  have h1 : cacheGet store key = ⟨none, true⟩ := by simp [cacheGet, hnull]
  have h2 : cacheGetOrSet store key fetcher = (fetcher, cacheSet store key fetcher, true) := by
    simp [cacheGetOrSet, cacheGet, hnull]
  have hrun : findClient cstore identifier remote =
      (none, cacheSet cstore (clientFullKey identifier) none, true) := by
    rcases hfresh with h | h <;>
      simp [findClient, cacheGetOrSet, cacheGet, h, hfetch]
  have hwritten : (cacheSet cstore (clientFullKey identifier) none)
      (clientFullKey identifier) = some none := by
    simp [cacheSet]
  have hrun2 : findClient (cacheSet cstore (clientFullKey identifier) none)
      identifier remote =
      (none, cacheSet (cacheSet cstore (clientFullKey identifier) none)
        (clientFullKey identifier) none, true) := by
    simp [findClient, cacheGetOrSet, cacheGet, hwritten, hfetch]
  refine ⟨h1, h2, ?_, ?_, ?_, ?_, ?_⟩ <;> simp [hrun, hwritten, hrun2]

/-- C10 witness: the theorem applied to a store holding null under `k`, a
fetcher returning 5, and a not-found remote lookup of `11122233344`. -/
theorem c10_cached_null_never_served_witness :
    cacheGet (cacheSet (emptyStore (α := Nat)) "k" none) "k" = ⟨none, true⟩ ∧
    (findClient emptyStore "11122233344" (fun _ => .notFound)).2.2 = true ∧
    (findClient (findClient emptyStore "11122233344" (fun _ => .notFound)).2.1
      "11122233344" (fun _ => .notFound)).2.2 = true := by
  have h := c10_cached_null_never_served
    (cacheSet (emptyStore (α := Nat)) "k" none) "k" (some 5) (by simp [cacheSet])
    emptyStore "11122233344" (fun _ => .notFound) rfl (Or.inl rfl)
  exact ⟨h.1, h.2.2.2.2.1, h.2.2.2.2.2.1⟩

/-- Every representable payload object (all declared fields well-typed, see
`Payload`) is accepted by `validateWebhookPayload` and returned unchanged:
the real-format schema accepts it or the all-optional passthrough legacy
schema does. Objects with mistyped declared fields — which the source can
still 400-reject through the schemas' type checks and the falsy fallback
key tests — are outside this model. -/
theorem validateWebhookPayload_obj (p : Payload) :
    validateWebhookPayload (Body.obj p) = some p := by
  unfold validateWebhookPayload
  split
  · rfl
  · simp [whaTicketWebhookAccepts]

/-- C4: deduplication. If a relevant delivery carries a truthy (non-empty)
message id (`message?.id`) whose dedup entry is cached, the handler answers
200 "duplicate" and fires no assistant run and no outbound send, leaving
the store untouched; a successfully processed message is cached under
`message?.id || requestId` — the message id when truthy, else the
per-request id; and a delivery whose `message.id` is absent, or is the
falsy empty string (for which the source skips the dedup lookup entirely),
is never answered "duplicate" — the behavioral rendering of the request-id
fallback, whose freshly generated key can never be in the cache. -/
theorem c4_duplicate_delivery_short_circuits
    (sc sp sv : Bool) (p : Payload) (mid requestId : String)
    (dedup : DedupStore) (orchOk : Bool)
    (hsig : (sc && sp && !sv) = false)
    (hrel : shouldProcessMessage p = true)
    (hid : p.message.bind MessageObj.id = some mid)
    (hmid : mid ≠ "")
    (hdup : (dedup (webhookFullKey mid)).isSome = true) :
    handleWebhook sc sp sv (.obj p) requestId dedup orchOk =
      ⟨.duplicateResp mid, 0, 0, dedup⟩
    ∧ (∀ (q : Payload) (rid : String) (st : DedupStore),
        ¬(strFalsy q.mensagem ∧ strFalsy (q.message.bind MessageObj.body) ∧
          strFalsy q.event ∧ strFalsy q.acao) →
        (processMessageAsync true q rid st).1
          (webhookFullKey (jsOrElse (q.message.bind MessageObj.id) rid)) = some (some ()))
    ∧ (∀ (sc2 sp2 sv2 : Bool) (q : Payload) (rid m2 : String) (st : DedupStore)
        (ok : Bool), q.message.bind MessageObj.id = none →
        (handleWebhook sc2 sp2 sv2 (.obj q) rid st ok).response ≠ .duplicateResp m2)
    ∧ (∀ (sc2 sp2 sv2 : Bool) (q : Payload) (rid m2 : String) (st : DedupStore)
        (ok : Bool), q.message.bind MessageObj.id = some "" →
        (handleWebhook sc2 sp2 sv2 (.obj q) rid st ok).response ≠ .duplicateResp m2) := by
  refine ⟨?_, ?_, ?_, ?_⟩
  · have hdm : isDuplicateMessage dedup mid = true := by
      simp [isDuplicateMessage, cacheGet]
      rcases h : dedup (webhookFullKey mid) with _ | v
      · rw [h] at hdup; exact absurd hdup (by simp)
      · rfl
    simp [handleWebhook, hsig, validateWebhookPayload_obj, hrel, hid, hmid, hdm]
  · intro q rid st hdata
    simp [processMessageAsync, hdata, cacheSet]
  · intro sc2 sp2 sv2 q rid m2 st ok hqid
    unfold handleWebhook
    split
    · simp
    · rw [validateWebhookPayload_obj]
      dsimp only
      split
      · simp
      · rw [hqid]
        simp
  · intro sc2 sp2 sv2 q rid m2 st ok hqid
    unfold handleWebhook
    split
    · simp
    · rw [validateWebhookPayload_obj]
      dsimp only
      split
      · simp
      · rw [hqid]
        simp

def c4Payload : Payload := { message := some { id := some "m1", body := some "oi" } }

def c4Dedup : DedupStore := cacheSet emptyStore (webhookFullKey "m1") (some ())

/-- C4 witness: the theorem applied to a legacy-shape payload whose
(non-empty) message id `m1` is already in the dedup cache. -/
theorem c4_duplicate_delivery_short_circuits_witness :
    (c4Dedup (webhookFullKey "m1")).isSome = true ∧
    handleWebhook false false false (.obj c4Payload) "req_7" c4Dedup true =
      ⟨.duplicateResp "m1", 0, 0, c4Dedup⟩ :=
  ⟨by decide,
   (c4_duplicate_delivery_short_circuits false false false c4Payload "m1" "req_7"
      c4Dedup true rfl (by decide) rfl (by decide) (by decide)).1⟩

def c5Payload : Payload := { event := some "message", fromMe := some true }

/-- C5 counterexample: this payload is flagged `fromMe = true`, is accepted
(through the legacy fallback shape carrying only an `event` keyword), and is
nevertheless dispatched to the assistant orchestrator with a 200 "accepted"
response — not the claimed 200 "ignored". -/
theorem c5_fromMe_event_payload_dispatched :
    c5Payload.fromMe = some true ∧
    (handleWebhook false false false (.obj c5Payload) "req_1" emptyStore true).response =
      .accepted "req_1" none ∧
    (handleWebhook false false false (.obj c5Payload) "req_1" emptyStore true).assistantRuns = 1 ∧
    (handleWebhook false false false (.obj c5Payload) "req_1" emptyStore true).response ≠
      .ignoredResp := by
  refine ⟨rfl, by decide, by decide, by decide⟩

/-- C5 (amended): the `fromMe` guard is applied per message-text shape. A
payload carrying a non-blank flat `mensagem` with top-level
`fromMe = true`, or one with no usable flat text but a non-blank legacy
`message.body` with `message.fromMe = true`, is answered 200 "ignored" and
never dispatched; but a payload accepted purely through its `event` or
`acao` keyword is dispatched regardless of its `fromMe` flag (see the
counterexample). -/
theorem c5_amended_fromMe_guard_per_shape
    (p : Payload) (rid : String) (dedup : DedupStore) (ok : Bool) :
    (optNonBlank p.mensagem = true → p.fromMe = some true →
      handleWebhook false false false (.obj p) rid dedup ok =
        ⟨.ignoredResp, 0, 0, dedup⟩)
    ∧ (optNonBlank p.mensagem = false →
        optNonBlank (p.message.bind MessageObj.body) = true →
        p.message.bind MessageObj.fromMe = some true →
        handleWebhook false false false (.obj p) rid dedup ok =
          ⟨.ignoredResp, 0, 0, dedup⟩) := by
  constructor
  · intro h1 h2
    have hrel : shouldProcessMessage p = false := by
      simp [shouldProcessMessage, h1, h2]
    simp [handleWebhook, validateWebhookPayload_obj, hrel]
  · intro h1 h2 h3
    have hrel : shouldProcessMessage p = false := by
      simp [shouldProcessMessage, h1, h2, h3]
    simp [handleWebhook, validateWebhookPayload_obj, hrel]

def c5FlatFromMe : Payload :=
  { sender := some "5511999999999", mensagem := some "oi", fromMe := some true }

/-- C5 witness: the amended theorem applied to a flat-shape payload with a
non-blank `mensagem` and `fromMe = true`. -/
theorem c5_amended_fromMe_guard_per_shape_witness :
    handleWebhook false false false (.obj c5FlatFromMe) "req_3" emptyStore true =
      ⟨.ignoredResp, 0, 0, emptyStore⟩ :=
  (c5_amended_fromMe_guard_per_shape c5FlatFromMe "req_3" emptyStore true).1
    (by decide) rfl

/-- C9 counterexample: the empty JSON object has no keys at all, yet it is
not rejected with 400 — the all-optional passthrough legacy schema accepts
it, the relevance filter then discards it, and the handler answers 200
"ignored" without dispatching. -/
theorem c9_empty_object_not_rejected :
    bodyKeys (.obj ({} : Payload)) = [] ∧
    (handleWebhook false false false (.obj ({} : Payload)) "req_2" emptyStore true).response =
      .ignoredResp ∧
    httpStatus
      (handleWebhook false false false (.obj ({} : Payload)) "req_2" emptyStore true).response
      = 200 ∧
    (handleWebhook false false false (.obj ({} : Payload)) "req_2" emptyStore true).response ≠
      .invalidPayload [] := by
  refine ⟨rfl, by decide, by decide, by decide⟩

/-- C9 (amended): the empty JSON object `\x7b\x7d` is not rejected with
400 — the all-optional passthrough legacy schema accepts it, the relevance
filter then discards it, and the handler answers 200 "ignored" (with
`receivedKeys` equal to `[]` had it been computed) without reaching
dispatch; a null (non-object) body, by contrast, does take the 400 path
with `receivedKeys: []`. -/
theorem c9_amended_empty_object_ignored :
    (∀ (rid : String) (dedup : DedupStore) (ok : Bool),
        handleWebhook false false false (.obj ({} : Payload)) rid dedup ok =
          ⟨.ignoredResp, 0, 0, dedup⟩)
    ∧ bodyKeys (.obj ({} : Payload)) = []
    ∧ (∀ (rid : String) (dedup : DedupStore) (ok : Bool),
        handleWebhook false false false .jsonNull rid dedup ok =
          ⟨.invalidPayload [], 0, 0, dedup⟩) := by
  refine ⟨?_, rfl, ?_⟩
  · intro rid dedup ok
    rfl
  · intro rid dedup ok
    rfl

/-- Servicing a batch of tool calls invokes the registry exactly once per
call whose arguments parse, in call order. -/
theorem invokeEvsFor_eq_filter_map (env : OrchEnv) (cs : List ToolCall) :
    invokeEvsFor env cs =
      (cs.filter fun tc => (env.parseArgs tc.argsJson).isSome).map
        fun tc => OrchEvent.invoke tc.id tc.fname := by
  induction cs with
  | nil => rfl
  | cons hd tl ih =>
    cases hp : env.parseArgs hd.argsJson <;>
      simp [invokeEvsFor, List.filterMap_cons, List.filter_cons, hp] <;>
      simpa [invokeEvsFor] using ih

/-- C1: a run entering `requires_action` with pending tool calls `cs`
(`pollRound` ends in `resubmit cs`) is serviced as follows: the registry is
invoked exactly once for each call whose JSON arguments parse (in call
order; a call whose parse throws gets no registry invocation), exactly
`cs.length` tool outputs are produced, the i-th output is keyed by the i-th
call's id and carries the serialized `FunctionResult` (or the synthesized
parse-failure result), and all outputs go to the assistant service in one
`submit` batch after which — and only after which — the polling trace
resumes. -/
theorem c1_requires_action_batched_tool_outputs
    (env : OrchEnv) (polls : Nat → RunView) (k k2 f : Nat)
    (cs : List ToolCall) (t : List OrchEvent)
    (hround : pollRound polls k 30 = (.resubmit cs, k2, t)) :
    waitFrom env polls (f + 1) k =
      ((waitFrom env polls f k2).1, (waitFrom env polls f k2).2.1,
        t ++ invokeEvsFor env cs ++ [.submit (outputsFor env cs)] ++
          (waitFrom env polls f k2).2.2)
    ∧ (outputsFor env cs).length = cs.length
    ∧ (outputsFor env cs).map ToolOutput.tool_call_id = cs.map ToolCall.id
    ∧ (∀ i (h1 : i < cs.length) (h2 : i < (outputsFor env cs).length),
        (outputsFor env cs).get ⟨i, h2⟩ =
          ⟨(cs.get ⟨i, h1⟩).id,
            serializeResult (executeFunctionCall env (cs.get ⟨i, h1⟩))⟩)
    ∧ invokeEvsFor env cs =
        (cs.filter fun tc => (env.parseArgs tc.argsJson).isSome).map
          fun tc => OrchEvent.invoke tc.id tc.fname := by
  refine ⟨?_, ?_, ?_, ?_, ?_⟩
  · rw [waitFrom, hround]
  · simp [outputsFor]
  · simp [outputsFor]
  · intro i h1 h2
    simp [outputsFor]
  · exact invokeEvsFor_eq_filter_map env cs

def c1Env : OrchEnv :=
  { parseArgs := fun s => if s = "\x7b\"client_identifier\":\"a@b.c\"\x7d" then some [] else none
    registry := fun _ _ => { success := true, message := "ok" } }

def c1Calls : List ToolCall :=
  [⟨"call_1", "get_client_invoices", "\x7b\"client_identifier\":\"a@b.c\"\x7d"⟩,
   ⟨"call_2", "create_ticket", "not json"⟩]

def c1Polls : Nat → RunView := fun k =>
  if k = 0 then { status := .requiresAction, toolCalls := some c1Calls }
  else { status := .completed }

/-- C1 witness: the theorem applied to a run whose first poll demands two
tool calls — one with parseable arguments, one whose parse throws. -/
theorem c1_requires_action_batched_tool_outputs_witness :
    pollRound c1Polls 0 30 = (.resubmit c1Calls, 1, [.poll .requiresAction]) ∧
    (outputsFor c1Env c1Calls).map ToolOutput.tool_call_id =
      c1Calls.map ToolCall.id ∧
    invokeEvsFor c1Env c1Calls =
      [OrchEvent.invoke "call_1" "get_client_invoices"] := by
  have h := c1_requires_action_batched_tool_outputs c1Env c1Polls 0 1 5 c1Calls
    [.poll .requiresAction] (by decide)
  exact ⟨by decide, h.2.2.1, by decide⟩

/-- A round all of whose polls report `queued`/`in_progress` exhausts the
attempt budget and throws the timeout error. -/
theorem pollRound_all_waiting (polls : Nat → RunView) :
    ∀ r k, (∀ i, i < r →
      (polls (k + i)).status = .queued ∨ (polls (k + i)).status = .inProgress) →
    (pollRound polls k r).1 = .err "Timeout aguardando completion do run" := by
  intro r
  induction r with
  | zero => intro k _; rfl
  | succ r ih =>
    intro k h
    have h0 := h 0 (by omega)
    rw [Nat.add_zero] at h0
    have hrec := ih (k + 1) (fun i hi => by
      have h2 : k + 1 + i = k + (i + 1) := by omega
      rw [h2]
      exact h (i + 1) (by omega))
    rcases h0 with h0 | h0 <;> simpa [pollRound, h0] using hrec

/-- A round whose first decisive poll (after only `queued`/`in_progress`
observations) reports a terminal status throws the error naming it. -/
theorem pollRound_first_terminal (polls : Nat → RunView) :
    ∀ j r k, j < r →
    (∀ i, i < j →
      (polls (k + i)).status = .queued ∨ (polls (k + i)).status = .inProgress) →
    ((polls (k + j)).status = .failed ∨ (polls (k + j)).status = .cancelled ∨
      (polls (k + j)).status = .expired) →
    (pollRound polls k r).1 =
      .err ("Run falhou com status: " ++ statusName (polls (k + j)).status) := by
  intro j
  induction j with
  | zero =>
    intro r k hr _ hterm
    match r, hr with
    | r + 1, _ =>
      rw [Nat.add_zero] at hterm ⊢
      rcases hterm with h0 | h0 | h0 <;> simp [pollRound, h0]
  | succ j ih =>
    intro r k hr hwait hterm
    match r, hr with
    | r + 1, hr =>
      have h0 := hwait 0 (by omega)
      rw [Nat.add_zero] at h0
      have hshift : k + 1 + j = k + (j + 1) := by omega
      have hrec := ih r (k + 1) (by omega)
        (fun i hi => by
          have h2 : k + 1 + i = k + (i + 1) := by omega
          rw [h2]
          exact hwait (i + 1) (by omega))
        (by rw [hshift]; exact hterm)
      rw [hshift] at hrec
      rcases h0 with h0 | h0 <;> simpa [pollRound, h0] using hrec

/-- No registry-invocation event is a poll event. -/
theorem poll_not_mem_invokeEvsFor (env : OrchEnv) (cs : List ToolCall)
    (st : RunStatus) : OrchEvent.poll st ∉ invokeEvsFor env cs := by
  simp [invokeEvsFor_eq_filter_map]

/-- If a round's trace records a poll with a terminal status, the round
ended by throwing the error naming that status (terminal polls stop the
round immediately). -/
theorem pollRound_mem_terminal (polls : Nat → RunView) :
    ∀ r k st, (st = .failed ∨ st = .cancelled ∨ st = .expired) →
    OrchEvent.poll st ∈ (pollRound polls k r).2.2 →
    (pollRound polls k r).1 = .err ("Run falhou com status: " ++ statusName st) := by
  intro r
  induction r with
  | zero => intro k st _ hmem; simp [pollRound] at hmem
  | succ r ih =>
    intro k st hst hmem
    cases hs : (polls k).status with
    | completed =>
      simp [pollRound, hs] at hmem
      subst hmem
      rcases hst with h | h | h <;> exact absurd h (by decide)
    | requiresAction =>
      cases hb : (polls k).actionIsSubmitToolOutputs with
      | true =>
        cases htc : (polls k).toolCalls with
        | none =>
          simp [pollRound, hs, hb, htc] at hmem
          subst hmem
          rcases hst with h | h | h <;> exact absurd h (by decide)
        | some cs =>
          simp [pollRound, hs, hb, htc] at hmem
          subst hmem
          rcases hst with h | h | h <;> exact absurd h (by decide)
      | false =>
        simp [pollRound, hs, hb] at hmem ⊢
        rcases hmem with hmem | hmem
        · subst hmem
          rcases hst with h | h | h <;> exact absurd h (by decide)
        · exact ih (k + 1) st hst hmem
    | failed =>
      simp [pollRound, hs] at hmem ⊢
      subst hmem
      simp [statusName]
    | cancelled =>
      simp [pollRound, hs] at hmem ⊢
      subst hmem
      simp [statusName]
    | expired =>
      simp [pollRound, hs] at hmem ⊢
      subst hmem
      simp [statusName]
    | queued =>
      simp [pollRound, hs] at hmem ⊢
      rcases hmem with hmem | hmem
      · subst hmem
        rcases hst with h | h | h <;> exact absurd h (by decide)
      · exact ih (k + 1) st hst hmem
    | inProgress =>
      simp [pollRound, hs] at hmem ⊢
      rcases hmem with hmem | hmem
      · subst hmem
        rcases hst with h | h | h <;> exact absurd h (by decide)
      · exact ih (k + 1) st hst hmem
    | cancelling =>
      simp [pollRound, hs] at hmem ⊢
      rcases hmem with hmem | hmem
      · subst hmem
        rcases hst with h | h | h <;> exact absurd h (by decide)
      · exact ih (k + 1) st hst hmem

/-- If the whole orchestration trace records a poll with a terminal status,
the orchestration outcome is the error naming it. -/
theorem waitFrom_mem_terminal (env : OrchEnv) (polls : Nat → RunView) :
    ∀ fuel k st, (st = .failed ∨ st = .cancelled ∨ st = .expired) →
    OrchEvent.poll st ∈ (waitFrom env polls fuel k).2.2 →
    (waitFrom env polls fuel k).1 =
      .errorMsg ("Run falhou com status: " ++ statusName st) := by
  intro fuel
  induction fuel with
  | zero =>
    intro k st hst hmem
    rcases heq : pollRound polls k 30 with ⟨o, k2, t⟩
    cases o with
    | done =>
      rw [waitFrom, heq] at hmem ⊢
      have := pollRound_mem_terminal polls 30 k st hst (by rw [heq]; exact hmem)
      rw [heq] at this
      exact absurd this (by simp)
    | err m =>
      rw [waitFrom, heq] at hmem ⊢
      have := pollRound_mem_terminal polls 30 k st hst (by rw [heq]; exact hmem)
      rw [heq] at this
      simp at this
      simp [this]
    | resubmit cs =>
      rw [waitFrom, heq] at hmem
      simp only [List.mem_append, List.mem_singleton, reduceCtorEq,
        or_false] at hmem
      rcases hmem with hmem | hmem
      · have := pollRound_mem_terminal polls 30 k st hst (by rw [heq]; exact hmem)
        rw [heq] at this
        exact absurd this (by simp)
      · exact absurd hmem (poll_not_mem_invokeEvsFor env cs st)
  | succ f ih =>
    intro k st hst hmem
    rcases heq : pollRound polls k 30 with ⟨o, k2, t⟩
    cases o with
    | done =>
      rw [waitFrom, heq] at hmem ⊢
      have := pollRound_mem_terminal polls 30 k st hst (by rw [heq]; exact hmem)
      rw [heq] at this
      exact absurd this (by simp)
    | err m =>
      rw [waitFrom, heq] at hmem ⊢
      have := pollRound_mem_terminal polls 30 k st hst (by rw [heq]; exact hmem)
      rw [heq] at this
      simp at this
      simp [this]
    | resubmit cs =>
      rw [waitFrom, heq] at hmem ⊢
      simp only [List.append_assoc, List.cons_append, List.nil_append,
        List.mem_append, List.mem_cons] at hmem
      dsimp only
      rcases hmem with hmem | hmem | hmem | hmem
      · have := pollRound_mem_terminal polls 30 k st hst (by rw [heq]; exact hmem)
        rw [heq] at this
        exact absurd this (by simp)
      · exact absurd hmem (poll_not_mem_invokeEvsFor env cs st)
      · exact absurd hmem (by simp)
      · exact ih k2 st hst hmem

/-- C2: a run whose polls stay `queued`/`in_progress` through the attempt
budget makes `waitForCompletion` throw the timeout error; a poll observing
`failed`/`cancelled`/`expired` (whether as the first decisive status or
anywhere in the trace) makes it throw the error naming that status; in both
cases `processMessage` catches the exception and returns
`{success: false, error: <message>}` — and its run counter stays at one: the
run is not retried. -/
theorem c2_timeout_and_terminal_status_errors
    (env : OrchEnv) (polls : Nat → RunView) (fuel : Nat) (reply : String) :
    ((∀ k, k < 30 →
        (polls k).status = .queued ∨ (polls k).status = .inProgress) →
      processMessage env polls fuel reply =
        ({ success := false, error := some "Timeout aguardando completion do run" }, 1))
    ∧ (∀ j, j < 30 →
        (∀ k, k < j →
          (polls k).status = .queued ∨ (polls k).status = .inProgress) →
        ((polls j).status = .failed ∨ (polls j).status = .cancelled ∨
          (polls j).status = .expired) →
        processMessage env polls fuel reply =
          ({ success := false
             error := some ("Run falhou com status: " ++ statusName (polls j).status) }, 1))
    ∧ (∀ st, (st = .failed ∨ st = .cancelled ∨ st = .expired) →
        OrchEvent.poll st ∈ (waitForCompletion env polls fuel).2.2 →
        processMessage env polls fuel reply =
          ({ success := false
             error := some ("Run falhou com status: " ++ statusName st) }, 1)) := by
  refine ⟨?_, ?_, ?_⟩
  · intro hq
    have h1 : (pollRound polls 0 30).1 = .err "Timeout aguardando completion do run" :=
      pollRound_all_waiting polls 30 0 (fun i hi => by
        rw [Nat.zero_add]; exact hq i hi)
    rcases heq : pollRound polls 0 30 with ⟨o, k2, t⟩
    rw [heq] at h1
    simp at h1
    subst h1
    simp [processMessage, waitForCompletion, waitFrom, heq]
  · intro j hj hwait hterm
    have h1 : (pollRound polls 0 30).1 =
        .err ("Run falhou com status: " ++ statusName (polls j).status) := by
      have := pollRound_first_terminal polls j 30 0 hj
        (fun i hi => by rw [Nat.zero_add]; exact hwait i hi)
        (by rw [Nat.zero_add]; exact hterm)
      rwa [Nat.zero_add] at this
    rcases heq : pollRound polls 0 30 with ⟨o, k2, t⟩
    rw [heq] at h1
    simp at h1
    subst h1
    simp [processMessage, waitForCompletion, waitFrom, heq]
  · intro st hst hmem
    have h1 := waitFrom_mem_terminal env polls fuel 0 st hst hmem
    simp [processMessage, waitForCompletion, h1]

def c2Env : OrchEnv :=
  { parseArgs := fun _ => none
    registry := fun _ _ => { success := true, message := "" } }

def c2QueuedPolls : Nat → RunView := fun _ => { status := .queued }

def c2FailPolls : Nat → RunView := fun k =>
  if k < 3 then { status := .inProgress } else { status := .failed }

/-- C2 witness: the theorem applied to a run that never leaves `queued`,
and to one that fails on its fourth poll. -/
theorem c2_timeout_and_terminal_status_errors_witness :
    processMessage c2Env c2QueuedPolls 5 "oi" =
      ({ success := false, error := some "Timeout aguardando completion do run" }, 1) ∧
    processMessage c2Env c2FailPolls 5 "oi" =
      ({ success := false, error := some "Run falhou com status: failed" }, 1) := by
  constructor
  · exact (c2_timeout_and_terminal_status_errors c2Env c2QueuedPolls 5 "oi").1
      (fun k _ => Or.inl rfl)
  · have h := (c2_timeout_and_terminal_status_errors c2Env c2FailPolls 5 "oi").2.1
      3 (by decide)
      (fun k hk => Or.inr (by simp [c2FailPolls, hk]))
      (Or.inl (by decide))
    exact h

def c3Env : OrchEnv :=
  { parseArgs := fun _ => some []
    registry := fun _ _ => { success := true, message := "" } }

def c3Polls : Nat → RunView := fun k =>
  if k < 31 then { status := .requiresAction, toolCalls := some [] }
  else { status := .completed }

/-- C3 counterexample: against a service that answers `requires_action`
(with a present, empty tool-call array — truthy in the source's guard) on
its first 31 polls and `completed` on the 32nd, the orchestration completes
successfully after 32 polls: the attempt budget of 30 restarts with every
resubmission round (part_005 line 196 re-enters `waitForCompletion`), so the
total number of run-status polls is not bounded by 30. -/
theorem c3_total_polls_not_bounded_by_budget :
    (waitForCompletion c3Env c3Polls 40).1 = .done ∧
    countPolls (waitForCompletion c3Env c3Polls 40).2.2 = 32 ∧
    ¬(countPolls (waitForCompletion c3Env c3Polls 40).2.2 ≤ 30) := by
  refine ⟨by decide, by decide, by decide⟩

theorem countPolls_append (a b : List OrchEvent) :
    countPolls (a ++ b) = countPolls a + countPolls b :=
  List.countP_append _ _ _

theorem countSubmits_append (a b : List OrchEvent) :
    countSubmits (a ++ b) = countSubmits a + countSubmits b :=
  List.countP_append _ _ _

theorem countPolls_cons_poll (st : RunStatus) (t : List OrchEvent) :
    countPolls (.poll st :: t) = countPolls t + 1 := by
  simp [countPolls, List.countP_cons]

theorem countSubmits_cons_poll (st : RunStatus) (t : List OrchEvent) :
    countSubmits (.poll st :: t) = countSubmits t := by
  simp [countSubmits, List.countP_cons]

theorem countPolls_submit_singleton (outs : List ToolOutput) :
    countPolls [.submit outs] = 0 := rfl

theorem countSubmits_submit_singleton (outs : List ToolOutput) :
    countSubmits [.submit outs] = 1 := rfl

/-- Registry invocations are neither polls nor submits. -/
theorem counts_invokeEvsFor (env : OrchEnv) (cs : List ToolCall) :
    countPolls (invokeEvsFor env cs) = 0 ∧ countSubmits (invokeEvsFor env cs) = 0 := by
  rw [invokeEvsFor_eq_filter_map]
  constructor <;>
    · induction cs.filter (fun tc => (env.parseArgs tc.argsJson).isSome) with
      | nil => rfl
      | cons hd tl ih => simp [countPolls, countSubmits, List.countP_cons, ih]

/-- A single round performs at most its remaining-attempt budget of polls. -/
theorem countPolls_pollRound_le (polls : Nat → RunView) :
    ∀ r k, countPolls (pollRound polls k r).2.2 ≤ r := by
  intro r
  induction r with
  | zero => intro k; exact Nat.le_refl 0
  | succ r ih =>
    intro k
    have hr := ih (k + 1)
    cases hs : (polls k).status
    case completed => simp [pollRound, hs, countPolls_cons_poll, countPolls]
    case failed => simp [pollRound, hs, countPolls_cons_poll, countPolls]
    case cancelled => simp [pollRound, hs, countPolls_cons_poll, countPolls]
    case expired => simp [pollRound, hs, countPolls_cons_poll, countPolls]
    case requiresAction =>
      cases hb : (polls k).actionIsSubmitToolOutputs
      case true =>
        cases htc : (polls k).toolCalls <;>
          simp [pollRound, hs, hb, htc, countPolls_cons_poll, countPolls]
      case false =>
        simp only [pollRound, hs, hb, Bool.false_eq_true, if_false,
          countPolls_cons_poll]
        omega
    case queued =>
      simp only [pollRound, hs, countPolls_cons_poll]
      omega
    case inProgress =>
      simp only [pollRound, hs, countPolls_cons_poll]
      omega
    case cancelling =>
      simp only [pollRound, hs, countPolls_cons_poll]
      omega

/-- A single round submits no tool outputs. -/
theorem countSubmits_pollRound (polls : Nat → RunView) :
    ∀ r k, countSubmits (pollRound polls k r).2.2 = 0 := by
  intro r
  induction r with
  | zero => intro _; rfl
  | succ r ih =>
    intro k
    have hr := ih (k + 1)
    cases hs : (polls k).status
    case completed => simp [pollRound, hs, countSubmits_cons_poll, countSubmits]
    case failed => simp [pollRound, hs, countSubmits_cons_poll, countSubmits]
    case cancelled => simp [pollRound, hs, countSubmits_cons_poll, countSubmits]
    case expired => simp [pollRound, hs, countSubmits_cons_poll, countSubmits]
    case requiresAction =>
      cases hb : (polls k).actionIsSubmitToolOutputs
      case true =>
        cases htc : (polls k).toolCalls <;>
          simp [pollRound, hs, hb, htc, countSubmits_cons_poll, countSubmits]
      case false =>
        simp only [pollRound, hs, hb, Bool.false_eq_true, if_false,
          countSubmits_cons_poll]
        exact hr
    case queued =>
      simp only [pollRound, hs, countSubmits_cons_poll]
      exact hr
    case inProgress =>
      simp only [pollRound, hs, countSubmits_cons_poll]
      exact hr
    case cancelling =>
      simp only [pollRound, hs, countSubmits_cons_poll]
      exact hr

/-- C3 (amended): the 30-attempt poll budget applies per polling round and
is reset by every `requires_action` resubmission, so the total number of
run-status polls in one orchestration is bounded by 30 times the number of
tool-output submission rounds plus one — not by 30. The loop still cannot
poll forever between two submissions. -/
theorem c3_amended_polls_bounded_per_round
    (env : OrchEnv) (polls : Nat → RunView) (fuel : Nat) :
    countPolls (waitForCompletion env polls fuel).2.2 ≤
      30 * (countSubmits (waitForCompletion env polls fuel).2.2 + 1) := by
  suffices h : ∀ fuel k, countPolls (waitFrom env polls fuel k).2.2 ≤
      30 * (countSubmits (waitFrom env polls fuel k).2.2 + 1) by
    exact h fuel 0
  intro fuel
  induction fuel with
  | zero =>
    intro k
    rcases heq : pollRound polls k 30 with ⟨o, k2, t⟩
    have hp : countPolls t ≤ 30 := by
      have := countPolls_pollRound_le polls 30 k
      rwa [heq] at this
    cases o with
    | done => rw [waitFrom, heq]; dsimp only; omega
    | err m => rw [waitFrom, heq]; dsimp only; omega
    | resubmit cs =>
      rw [waitFrom, heq]
      simp only [countPolls_append, countSubmits_append,
        countPolls_submit_singleton, countSubmits_submit_singleton,
        (counts_invokeEvsFor env cs).1, (counts_invokeEvsFor env cs).2]
      omega
  | succ f ih =>
    intro k
    rcases heq : pollRound polls k 30 with ⟨o, k2, t⟩
    have hp : countPolls t ≤ 30 := by
      have := countPolls_pollRound_le polls 30 k
      rwa [heq] at this
    cases o with
    | done => rw [waitFrom, heq]; dsimp only; omega
    | err m => rw [waitFrom, heq]; dsimp only; omega
    | resubmit cs =>
      rw [waitFrom, heq]
      have hrec := ih k2
      simp only [countPolls_append, countSubmits_append,
        countPolls_submit_singleton, countSubmits_submit_singleton,
        (counts_invokeEvsFor env cs).1, (counts_invokeEvsFor env cs).2]
      omega
